import Mathlib

/-!
# Verification of the admission-backend specification

Shallow embedding of `src/backend/server.js` (an Express/Mongoose REST backend
for a student admission workflow).  The document store is modelled as a Lean
list of `User` records plus a list of `Course` records; each route handler is a
pure function from the incoming request and the current store to a response and
the updated store.  JavaScript numbers that can be `NaN` (the coerced marks
fields) are modelled by `JsNum`; course identifiers (Mongo ObjectIds) are
modelled as strings with string equality.  The password hasher (`bcrypt.hash`)
and the token verifier (`jwt.verify`) are external libraries; handlers take
them as function parameters.
-/

/-- A JavaScript number as used for the marks fields of `/bio`: either a real
(integer) value or `NaN`, which `Number(undefined)` and `Number("garbage")`
produce.  Fractional values do not occur in the claims and are outside the
model. -/
inductive JsNum where
  | nan : JsNum
  | num : Int → JsNum
deriving DecidableEq, Repr

/-- The comparison `minimumMarks <= marks12th` used in the Mongo query
`minimumMarks: { $lte: user.bioData.marks12th }`: false whenever the user's
marks are `NaN` (no real course minimum compares `<=` to `NaN`). -/
def jsLe (m : Int) (x : JsNum) : Bool :=
  match x with
  | .nan => false
  | .num v => m ≤ v

/-- Value of a non-empty list of decimal digits (most significant first). -/
def digitsVal : List Char → Nat
  | [] => 0
  | c :: cs => (c.toNat - 48) * 10 ^ cs.length + digitsVal cs

/-- Models the JavaScript coercion `Number(x)` applied to an optional form
field (`/bio`, lines 146-149): an absent field (`undefined`) becomes `NaN`,
the empty string becomes `0`, a string of decimal digits becomes that number,
and anything else becomes `NaN`. -/
def jsNumber (v : Option String) : JsNum :=
  match v with
  | none => .nan
  | some s =>
    match s.toList with
    | [] => .num 0
    | cs => if cs.all Char.isDigit then .num (digitsVal cs : Nat) else .nan

/-- JavaScript truthiness of an optional string form field: `undefined` and
`""` are falsy, every other string is truthy. -/
def truthy : Option String → Bool
  | none => false
  | some s => !(s == "")

/-- Embedded `bioData` subdocument (`BioDataSchema`, server.js lines 33-40). -/
structure BioData where
  name : String
  age : JsNum
  specialization : String
  marks10th : JsNum
  marks12th : JsNum
  certificates : List String
deriving DecidableEq, Repr

/-- A `User` document (`UserSchema`, server.js lines 43-51).  `id` is the
server-generated `_id`; `bioData` is `none` until the bio route stores it
(mirroring the schema default `{}`, which fails the route's truthiness check
exactly like an absent subdocument); `password` holds the stored bcrypt
hash. -/
structure User where
  id : String
  email : String
  password : String
  username : String
  phonenumber : String
  bioData : Option BioData
  coursesApplied : List String
  applicationStatus : String
deriving DecidableEq, Repr

/-- A `Course` document (`CourseSchema`, server.js lines 55-59). -/
structure Course where
  id : String
  name : String
  specializationRequired : String
  minimumMarks : Int
deriving DecidableEq, Repr

/-- `User.findById(id)` on the users collection. -/
def findById (users : List User) (uid : String) : Option User :=
  users.find? (fun v => v.id == uid)

/-- `user.save()`: writes the (mutated) document back into the collection by
`_id`. -/
def saveUser (users : List User) (u : User) : List User :=
  users.map (fun v => if v.id == u.id then u else v)

/-! ## Auth middleware (server.js lines 74-92) -/

/-- Result of `jwt.verify(token, secret, callback)`: success with a decoded
`{id}` payload, a verification error handed to the callback (invalid or
expired token), or an unexpected synchronous exception. -/
inductive VerifyOutcome where
  | ok : String → VerifyOutcome
  | invalid : VerifyOutcome
  | raise : VerifyOutcome
deriving DecidableEq, Repr

/-- Outcome of the `auth` middleware: 403, 401, 500, or proceed to the handler
with the decoded user id attached as `req.user`. -/
inductive AuthResult where
  | forbidden : String → AuthResult
  | unauthorized : String → AuthResult
  | internalError : String → AuthResult
  | proceed : String → AuthResult
deriving DecidableEq, Repr

/-- HTTP status of each middleware outcome (`proceed` means the request
reaches the handler). -/
def AuthResult.status : AuthResult → Nat
  | .forbidden _ => 403
  | .unauthorized _ => 401
  | .internalError _ => 500
  | .proceed _ => 200

/-- `h.startsWith("Bearer ")`: the first seven characters are `"Bearer "`. -/
def isBearerHeader (h : String) : Bool :=
  h.toList.take 7 == "Bearer ".toList

/-- The guard `!authHeader || !authHeader.startsWith("Bearer ")` (line 77):
an absent header and the falsy empty string both fail, as does any header not
starting with `"Bearer "`. -/
def goodHeader : Option String → Bool
  | none => false
  | some h => !(h == "") && isBearerHeader h

/-- Drops characters up to and including the first space. -/
def dropUntilSpace : List Char → List Char
  | [] => []
  | c :: cs => if c = ' ' then cs else dropUntilSpace cs

/-- Takes characters up to (excluding) the first space. -/
def takeUntilSpace : List Char → List Char
  | [] => []
  | c :: cs => if c = ' ' then [] else c :: takeUntilSpace cs

/-- `authHeader.split(" ")[1]` (line 81): the second space-separated word of
the header (the guard guarantees at least one space is present). -/
def bearerToken (h : String) : String :=
  String.mk (takeUntilSpace (dropUntilSpace h.toList))

/-- The `auth` middleware (lines 74-92): 403 when the header is absent or
malformed, 401 when `jwt.verify` reports an error, 500 when verification
throws, otherwise attach the decoded id and proceed. -/
def auth (header : Option String) (verify : String → VerifyOutcome) : AuthResult :=
  match header with
  | none => .forbidden "No token provided or incorrect format"
  | some h =>
    if h == "" || !(isBearerHeader h) then
      .forbidden "No token provided or incorrect format"
    else
      match verify (bearerToken h) with
      | .ok decoded => .proceed decoded
      | .invalid => .unauthorized "Invalid or expired token"
      | .raise => .internalError "Failed to authenticate token"

/-! ## Signup (server.js lines 95-112) -/

/-- Body of `POST /signup`. -/
structure SignupReq where
  email : String
  password : String
  username : String
  phonenumber : String
deriving DecidableEq, Repr

/-- A signed bearer token: `jwt.sign({ id }, secret, { expiresIn: "1h" })`
modelled by the payload it is bound to. -/
structure SignedToken where
  id : String
deriving DecidableEq, Repr

/-- Response of `POST /signup`: 409 Conflict or 201 Created with the token and
the new user's id. -/
inductive SignupResp where
  | conflict : String → SignupResp
  | created : SignedToken → String → SignupResp
deriving DecidableEq, Repr

/-- HTTP status of a signup response. -/
def SignupResp.status : SignupResp → Nat
  | .conflict _ => 409
  | .created _ _ => 201

/-- `POST /signup` (lines 95-112).  `hash` models `bcrypt.hash(password, 10)`
and `newId` the `_id` Mongo generates for the new document.  The duplicate
check is `User.findOne({ $or: [{email}, {username}] })`. -/
def signup (users : List User) (hash : String → String) (newId : String)
    (r : SignupReq) : SignupResp × List User :=
  if users.any (fun u => u.email == r.email || u.username == r.username) then
    (.conflict "User already exists", users)
  else
    let newUser : User :=
      { id := newId
        email := r.email
        password := hash r.password
        username := r.username
        phonenumber := r.phonenumber
        bioData := none
        coursesApplied := []
        applicationStatus := "Pending" }
    (.created ⟨newId⟩ newId, users ++ [newUser])

/-- The user stores reachable through `/signup` from an empty collection. -/
inductive ReachableUsers : List User → Prop where
  | init : ReachableUsers []
  | step (users : List User) (hash : String → String) (newId : String)
      (r : SignupReq) : ReachableUsers users →
      ReachableUsers (signup users hash newId r).2

/-- Pairwise uniqueness of `email` and `username` across the store (the
`unique: true` schema invariant). -/
def UniqueCreds (users : List User) : Prop :=
  users.Pairwise (fun a b => a.email ≠ b.email ∧ a.username ≠ b.username)

/-! ## Bio submission (server.js lines 132-162) -/

/-- Body of `POST /bio`: multipart form fields (each possibly absent) plus the
stored filenames of the uploaded `certificates` files (`req.files`, after
multer's File Intake has named and saved them). -/
structure BioReq where
  name : Option String
  age : Option String
  specialization : Option String
  marks10th : Option String
  marks12th : Option String
  files : List String
deriving DecidableEq, Repr

/-- Response of `POST /bio`. -/
inductive BioResp where
  | badRequest : String → BioResp
  | notFound : String → BioResp
  | ok : BioData → BioResp
deriving DecidableEq, Repr

/-- HTTP status of a bio response. -/
def BioResp.status : BioResp → Nat
  | .badRequest _ => 400
  | .notFound _ => 404
  | .ok _ => 200

/-- The `bioData` record the `/bio` route assigns (lines 144-151): the string
fields verbatim, the numeric fields through `Number(...)`, and `certificates`
set to exactly the uploaded filenames. -/
def submittedBio (r : BioReq) : BioData :=
  { name := r.name.getD ""
    age := jsNumber r.age
    specialization := r.specialization.getD ""
    marks10th := jsNumber r.marks10th
    marks12th := jsNumber r.marks12th
    certificates := r.files }

/-- `POST /bio` (lines 132-162): reject with 400 when `name`, `age` or
`specialization` is falsy; 404 when the authenticated user does not exist;
otherwise replace `bioData` wholesale with `submittedBio r` and persist. -/
def bioRoute (users : List User) (uid : String) (r : BioReq) :
    BioResp × List User :=
  if !(truthy r.name && truthy r.age && truthy r.specialization) then
    (.badRequest "Missing required fields", users)
  else
    match findById users uid with
    | none => (.notFound "User not found", users)
    | some u =>
      let u2 : User := { u with bioData := some (submittedBio r) }
      (.ok (submittedBio r), saveUser users u2)

/-! ## Course discovery (server.js lines 164-182 and 189-208) -/

/-- The catalog query shared by `/courses` and `/user` (lines 171-174 and
197-200): all courses whose `specializationRequired` equals the user's
specialization and whose `minimumMarks` is `$lte` the user's `marks12th`,
in catalog order. -/
def eligibleCourses (catalog : List Course) (spec : String) (m12 : JsNum) :
    List Course :=
  catalog.filter (fun c => c.specializationRequired == spec && jsLe c.minimumMarks m12)

/-- `.populate("coursesApplied")` (line 166): each referenced course id is
replaced by the full `Course` document; references that match no catalog
document are dropped. -/
def populateCourses (catalog : List Course) (ids : List String) : List Course :=
  ids.filterMap (fun cid => catalog.find? (fun c => c.id == cid))

/-- Response of `GET /courses`: 400 when bio data is incomplete, otherwise
the eligible courses plus the applied courses populated with full documents. -/
inductive CoursesResp where
  | badRequest : String → CoursesResp
  | ok : List Course → List Course → CoursesResp
deriving DecidableEq, Repr

/-- HTTP status of a `/courses` response. -/
def CoursesResp.status : CoursesResp → Nat
  | .badRequest _ => 400
  | .ok _ _ => 200

/-- Response of `GET /user`: 400 when bio data is incomplete, otherwise the
eligible courses plus the applied courses as raw id references. -/
inductive UserResp where
  | badRequest : String → UserResp
  | ok : List Course → List String → UserResp
deriving DecidableEq, Repr

/-- HTTP status of a `/user` response. -/
def UserResp.status : UserResp → Nat
  | .badRequest _ => 400
  | .ok _ _ => 200

/-- The bio-incomplete error message shared by `/courses` and `/user`. -/
def bioIncompleteMsg : String :=
  "Please complete your bio data before applying for courses."

/-- `GET /courses` (lines 164-182): 400 when the user is missing, has no
`bioData`, or its `specialization` is falsy; otherwise the eligibility query
plus the populated `coursesApplied`.  The route never writes the store. -/
def coursesRoute (users : List User) (catalog : List Course) (uid : String) :
    CoursesResp × List User :=
  match findById users uid with
  | none => (.badRequest bioIncompleteMsg, users)
  | some u =>
    match u.bioData with
    | none => (.badRequest bioIncompleteMsg, users)
    | some b =>
      if b.specialization == "" then (.badRequest bioIncompleteMsg, users)
      else
        (.ok (eligibleCourses catalog b.specialization b.marks12th)
          (populateCourses catalog u.coursesApplied), users)

/-- `GET /user` (lines 189-208): identical to `/courses` except that
`coursesApplied` is returned as raw references (no `.populate`). -/
def userRoute (users : List User) (catalog : List Course) (uid : String) :
    UserResp × List User :=
  match findById users uid with
  | none => (.badRequest bioIncompleteMsg, users)
  | some u =>
    match u.bioData with
    | none => (.badRequest bioIncompleteMsg, users)
    | some b =>
      if b.specialization == "" then (.badRequest bioIncompleteMsg, users)
      else
        (.ok (eligibleCourses catalog b.specialization b.marks12th)
          u.coursesApplied, users)

/-! ## Course application (server.js lines 211-225 and 227-247) -/

/-- Response of `POST /apply/:courseId`: 404 or 200 with the full updated
user document in the body. -/
inductive ApplyPathResp where
  | notFound : String → ApplyPathResp
  | ok : String → User → ApplyPathResp
deriving DecidableEq, Repr

/-- HTTP status of an `/apply/:courseId` response. -/
def ApplyPathResp.status : ApplyPathResp → Nat
  | .notFound _ => 404
  | .ok _ _ => 200

/-- `POST /apply/:courseId` (lines 211-225): push the path parameter onto
`coursesApplied` unconditionally (no duplicate check, no catalog lookup — the
function does not even take the catalog), set `applicationStatus` to
"Under Review", persist, and return the full updated user. -/
def applyPathRoute (users : List User) (uid : String) (courseId : String) :
    ApplyPathResp × List User :=
  match findById users uid with
  | none => (.notFound "User not found", users)
  | some u =>
    let u2 : User :=
      { u with coursesApplied := u.coursesApplied ++ [courseId]
               applicationStatus := "Under Review" }
    (.ok "Course applied successfully" u2, saveUser users u2)

/-- Response of `POST /apply-course`. -/
inductive ApplyCourseResp where
  | notFound : String → ApplyCourseResp
  | badRequest : String → ApplyCourseResp
  | ok : String → ApplyCourseResp
deriving DecidableEq, Repr

/-- HTTP status of an `/apply-course` response. -/
def ApplyCourseResp.status : ApplyCourseResp → Nat
  | .notFound _ => 404
  | .badRequest _ => 400
  | .ok _ => 200

/-- `POST /apply-course` (lines 227-247): 404 when the user is missing, 400
when the body's `courseId` is falsy, 400 when it is already present in
`coursesApplied`, otherwise append and persist (without touching
`applicationStatus`). -/
def applyCourseRoute (users : List User) (uid : String)
    (courseId : Option String) : ApplyCourseResp × List User :=
  match findById users uid with
  | none => (.notFound "User not found.", users)
  | some u =>
    match courseId with
    | none => (.badRequest "Course ID is required.", users)
    | some cid =>
      if cid == "" then (.badRequest "Course ID is required.", users)
      else if u.coursesApplied.contains cid then
        (.badRequest "You have already applied for this course.", users)
      else
        let u2 : User := { u with coursesApplied := u.coursesApplied ++ [cid] }
        (.ok "Application submitted successfully!", saveUser users u2)

/-! ## Theorems -/


theorem findById_id {users : List User} {uid : String} {u : User}
    (h : findById users uid = some u) : u.id = uid := by
  have := List.find?_some h
  simpa using this

theorem findById_saveUser {users : List User} {uid : String} {u : User}
    (h : findById users uid = some u) (u2 : User) (hid : u2.id = uid) :
    findById (saveUser users u2) uid = some u2 := by
  induction users with
  | nil => simp [findById] at h
  | cons v vs ih =>
    by_cases hv : v.id = uid
    · simp [findById, saveUser, hid, hv]
    · have hne : (v.id == uid) = false := by simp [hv]
      have h' : findById vs uid = some u := by
        simp only [findById, List.find?_cons, hne] at h
        exact h
      have hrec := ih h'
      have hvne2 : (v.id == u2.id) = false := by simp [hid, hv]
      simp only [saveUser, List.map_cons, hvne2, Bool.false_eq_true, if_false,
        findById, List.find?_cons, hne] at hrec ⊢
      exact hrec

/-- C5: on a protected route, the auth middleware returns 403 exactly when the
Authorization header is absent or does not start with "Bearer ", 401 exactly
when a bearer token is present but `jwt.verify` reports it invalid or expired,
proceeds with the decoded user id attached exactly on valid tokens, and
returns 500 exactly when verification throws; since the characterizing
conditions are incompatible and the middleware returns a single outcome, the
three failure classes are mutually exclusive. -/
theorem auth_cases_c5 (header : Option String) (verify : String → VerifyOutcome) :
    ((auth header verify = .forbidden "No token provided or incorrect format")
      ↔ goodHeader header = false)
    ∧ (∀ h, header = some h → goodHeader header = true →
        ((auth header verify = .unauthorized "Invalid or expired token")
          ↔ verify (bearerToken h) = .invalid)
        ∧ (∀ d, (auth header verify = .proceed d) ↔ verify (bearerToken h) = .ok d)
        ∧ ((auth header verify = .internalError "Failed to authenticate token")
          ↔ verify (bearerToken h) = .raise)) := by
  cases header with
  | none => simp [auth, goodHeader]
  | some h =>
    have hgg : goodHeader (some h) = !(h == "" || !(isBearerHeader h)) := by
      simp [goodHeader, Bool.not_or]
    cases hb : (h == "" || !(isBearerHeader h)) with
    | true =>
      refine ⟨by simp [auth, hb, hgg], ?_⟩
      intro h' hh hgood
      cases hh
      rw [hgg, hb] at hgood
      simp at hgood
    | false =>
      constructor
      · cases hv : verify (bearerToken h) <;> simp [auth, hb, hv, hgg]
      · intro h' hh _
        cases hh
        refine ⟨?_, fun d => ?_, ?_⟩ <;>
          cases hv : verify (bearerToken h) <;> simp [auth, hb, hv]

theorem auth_cases_c5_witness :
    auth (some "Bearer tok123") (fun _ => .ok "u1") = .proceed "u1" :=
  (((auth_cases_c5 (some "Bearer tok123") (fun _ => .ok "u1")).2
      "Bearer tok123" rfl (by decide)).2.1 "u1").mpr rfl

/-- C4: every user store reachable through signup keeps `email` and `username`
each globally unique; a signup whose email or username matches an existing
user returns 409 Conflict and creates no record; otherwise a new user is
created with hashed password and default `applicationStatus` "Pending", and a
token bound to the new identifier is returned with status 201. -/
theorem signup_unique_c4 :
    (∀ users, ReachableUsers users → UniqueCreds users)
    ∧ (∀ (users : List User) (hash : String → String) (newId : String)
        (r : SignupReq), (∃ u ∈ users, u.email = r.email ∨ u.username = r.username) →
        signup users hash newId r = (.conflict "User already exists", users)
        ∧ (signup users hash newId r).1.status = 409)
    ∧ (∀ (users : List User) (hash : String → String) (newId : String)
        (r : SignupReq), (∀ u ∈ users, u.email ≠ r.email ∧ u.username ≠ r.username) →
        ∃ nu : User,
          signup users hash newId r = (.created ⟨newId⟩ newId, users ++ [nu])
          ∧ nu.id = newId ∧ nu.email = r.email ∧ nu.username = r.username
          ∧ nu.password = hash r.password ∧ nu.applicationStatus = "Pending"
          ∧ nu.bioData = none ∧ nu.coursesApplied = []
          ∧ (signup users hash newId r).1.status = 201) := by
  have hguard : ∀ (users : List User) (r : SignupReq),
      (users.any (fun u => u.email == r.email || u.username == r.username)) = true
      ↔ ∃ u ∈ users, u.email = r.email ∨ u.username = r.username := by
    intro users r
    simp [List.any_eq_true]
  refine ⟨?_, ?_, ?_⟩
  · intro users hreach
    induction hreach with
    | init => simp [UniqueCreds]
    | step users hash newId r _ ih =>
      cases hg : (users.any (fun u => u.email == r.email || u.username == r.username)) with
      | true => simpa [signup, hg] using ih
      | false =>
        have hfresh : ∀ u ∈ users, u.email ≠ r.email ∧ u.username ≠ r.username := by
          have := (hguard users r).not.mp (by simp [hg])
          push_neg at this
          intro u hu
          exact ⟨(this u hu).1, (this u hu).2⟩
        simp only [signup, hg, Bool.false_eq_true, if_false]
        unfold UniqueCreds at ih ⊢
        rw [List.pairwise_append]
        refine ⟨ih, by simp, ?_⟩
        intro a ha b hb
        simp only [List.mem_singleton] at hb
        subst hb
        exact ⟨(hfresh a ha).1, (hfresh a ha).2⟩
  · intro users hash newId r hex
    have hg := (hguard users r).mpr hex
    simp [signup, hg, SignupResp.status]
  · intro users hash newId r hfr
    have hg : (users.any (fun u => u.email == r.email || u.username == r.username)) = false := by
      cases hg : (users.any (fun u => u.email == r.email || u.username == r.username)) with
      | false => rfl
      | true =>
        rcases (hguard users r).mp hg with ⟨u, hu, hor⟩
        rcases hor with he | hn
        · exact absurd he (hfr u hu).1
        · exact absurd hn (hfr u hu).2
    refine ⟨{ id := newId, email := r.email, password := hash r.password,
              username := r.username, phonenumber := r.phonenumber,
              bioData := none, coursesApplied := [],
              applicationStatus := "Pending" },
        ?_, rfl, rfl, rfl, rfl, rfl, rfl, rfl, ?_⟩ <;>
      simp [signup, hg, SignupResp.status]

theorem signup_unique_c4_witness :
    (signup [] (fun p => "h" ++ p) "id1"
        ⟨"a@x.com", "pw", "alice", "555"⟩).2.Pairwise
      (fun a b => a.email ≠ b.email ∧ a.username ≠ b.username)
    ∧ (signup ((signup [] (fun p => "h" ++ p) "id1"
          ⟨"a@x.com", "pw", "alice", "555"⟩).2) (fun p => "h" ++ p) "id2"
        ⟨"a@x.com", "pw2", "bob", "666"⟩).1.status = 409 :=
  ⟨signup_unique_c4.1 _ (.step [] _ "id1" _ .init),
    ((signup_unique_c4.2.1 _ (fun p => "h" ++ p) "id2"
        ⟨"a@x.com", "pw2", "bob", "666"⟩ (by decide))).2⟩

theorem coursesRoute_ok {users : List User} (catalog : List Course)
    {uid : String} {u : User} {b : BioData}
    (hu : findById users uid = some u) (hb : u.bioData = some b)
    (hs : b.specialization ≠ "") :
    coursesRoute users catalog uid =
      (.ok (eligibleCourses catalog b.specialization b.marks12th)
        (populateCourses catalog u.coursesApplied), users) := by
  simp [coursesRoute, hu, hb, hs]

theorem userRoute_ok {users : List User} (catalog : List Course)
    {uid : String} {u : User} {b : BioData}
    (hu : findById users uid = some u) (hb : u.bioData = some b)
    (hs : b.specialization ≠ "") :
    userRoute users catalog uid =
      (.ok (eligibleCourses catalog b.specialization b.marks12th)
        u.coursesApplied, users) := by
  simp [userRoute, hu, hb, hs]

theorem mem_eligibleCourses (catalog : List Course) (spec : String)
    (m12 : JsNum) (c : Course) :
    c ∈ eligibleCourses catalog spec m12 ↔
      c ∈ catalog ∧ c.specializationRequired = spec
        ∧ jsLe c.minimumMarks m12 = true := by
  simp [eligibleCourses, List.mem_filter, and_assoc]

/-- C1: for a user whose stored `bioData.specialization` is set, course
discovery (`/courses` and `/user`) returns exactly the catalog courses whose
`specializationRequired` equals the user's specialization and whose
`minimumMarks` is at most the user's `marks12th` (no course failing either
predicate appears), and repeating the query on the unchanged store returns an
identical result. -/
theorem courses_c1 (users : List User) (catalog : List Course) (uid : String)
    (u : User) (b : BioData)
    (hu : findById users uid = some u) (hb : u.bioData = some b)
    (hs : b.specialization ≠ "") :
    coursesRoute users catalog uid =
      (.ok (eligibleCourses catalog b.specialization b.marks12th)
        (populateCourses catalog u.coursesApplied), users)
    ∧ userRoute users catalog uid =
      (.ok (eligibleCourses catalog b.specialization b.marks12th)
        u.coursesApplied, users)
    ∧ (∀ c : Course, c ∈ eligibleCourses catalog b.specialization b.marks12th
        ↔ c ∈ catalog ∧ c.specializationRequired = b.specialization
          ∧ jsLe c.minimumMarks b.marks12th = true)
    ∧ coursesRoute (coursesRoute users catalog uid).2 catalog uid
        = coursesRoute users catalog uid
    ∧ userRoute (userRoute users catalog uid).2 catalog uid
        = userRoute users catalog uid := by
  have hc := coursesRoute_ok catalog hu hb hs
  have hus := userRoute_ok catalog hu hb hs
  refine ⟨hc, hus, mem_eligibleCourses catalog b.specialization b.marks12th,
    ?_, ?_⟩
  · rw [hc]
    exact hc
  · rw [hus]
    exact hus

/-- C9: a valid bearer token whose user id matches no stored user makes
`/courses` and `/user` answer 400 with the bio-incomplete message, never 404:
a nonexistent user is indistinguishable from one who has not submitted bio
data. -/
theorem missing_user_c9 (users : List User) (catalog : List Course)
    (uid : String) (h : findById users uid = none) :
    coursesRoute users catalog uid = (.badRequest bioIncompleteMsg, users)
    ∧ userRoute users catalog uid = (.badRequest bioIncompleteMsg, users)
    ∧ (coursesRoute users catalog uid).1.status = 400
    ∧ (coursesRoute users catalog uid).1.status ≠ 404
    ∧ (userRoute users catalog uid).1.status = 400
    ∧ (userRoute users catalog uid).1.status ≠ 404 := by
  simp [coursesRoute, userRoute, h, CoursesResp.status, UserResp.status]

/-- C8: on identical user and catalog state, `/courses` and `/user` compute
the same `availableCourses` set and fail with 400 under exactly the same
condition; they differ only in `appliedCourses`, which `/courses` populates
with full `Course` documents and `/user` leaves as raw references. -/
theorem discovery_equiv_c8 (users : List User) (catalog : List Course)
    (uid : String) :
    ((coursesRoute users catalog uid).1.status = 400
      ↔ (userRoute users catalog uid).1.status = 400)
    ∧ (∀ u b, findById users uid = some u → u.bioData = some b →
        b.specialization ≠ "" →
        coursesRoute users catalog uid =
          (.ok (eligibleCourses catalog b.specialization b.marks12th)
            (populateCourses catalog u.coursesApplied), users)
        ∧ userRoute users catalog uid =
          (.ok (eligibleCourses catalog b.specialization b.marks12th)
            u.coursesApplied, users))
    ∧ (∀ u, findById users uid = some u →
        (u.bioData = none ∨ ∃ b, u.bioData = some b ∧ b.specialization = "") →
        coursesRoute users catalog uid = (.badRequest bioIncompleteMsg, users)
        ∧ userRoute users catalog uid = (.badRequest bioIncompleteMsg, users)) := by
  refine ⟨?_, ?_, ?_⟩
  · cases hu : findById users uid with
    | none =>
      simp [coursesRoute, userRoute, hu, CoursesResp.status, UserResp.status]
    | some u =>
      cases hb : u.bioData with
      | none =>
        simp [coursesRoute, userRoute, hu, hb, CoursesResp.status,
          UserResp.status]
      | some b =>
        cases hs : (b.specialization == "") with
        | true =>
          simp [coursesRoute, userRoute, hu, hb, hs, CoursesResp.status,
            UserResp.status]
        | false =>
          simp [coursesRoute, userRoute, hu, hb, hs, CoursesResp.status,
            UserResp.status]
  · intro u b hu hb hs
    exact ⟨coursesRoute_ok catalog hu hb hs, userRoute_ok catalog hu hb hs⟩
  · intro u hu hun
    rcases hun with hb | ⟨b, hb, hs⟩
    · constructor <;> simp [coursesRoute, userRoute, hu, hb]
    · constructor <;> simp [coursesRoute, userRoute, hu, hb, hs]

/-- A user with complete bio data, used to instantiate the theorems. -/
def demoBio : BioData :=
  { name := "Alice", age := .num 19, specialization := "Biology",
    marks10th := .num 90, marks12th := .num 80, certificates := ["c.pdf"] }

/-- A stored user who has applied to course `crs1`. -/
def demoUser : User :=
  { id := "u1", email := "a@x.com", password := "hpw", username := "alice",
    phonenumber := "555", bioData := some demoBio, coursesApplied := ["crs1"],
    applicationStatus := "Pending" }

/-- A Biology course the demo user is eligible for. -/
def demoCourse1 : Course :=
  { id := "crs1", name := "Bio101", specializationRequired := "Biology",
    minimumMarks := 70 }

/-- A Biology course whose minimum marks exceed the demo user's marks. -/
def demoCourse2 : Course :=
  { id := "crs2", name := "Bio999", specializationRequired := "Biology",
    minimumMarks := 90 }

/-- The demo course catalog. -/
def demoCatalog : List Course := [demoCourse1, demoCourse2]

theorem courses_c1_witness :
    coursesRoute [demoUser] demoCatalog "u1" =
      (.ok [demoCourse1] [demoCourse1], [demoUser]) := by
  have h := (courses_c1 [demoUser] demoCatalog "u1" demoUser demoBio rfl rfl
      (by decide)).1
  rw [h]
  rfl

theorem missing_user_c9_witness :
    coursesRoute [demoUser] demoCatalog "ghost" =
      (.badRequest bioIncompleteMsg, [demoUser]) :=
  (missing_user_c9 [demoUser] demoCatalog "ghost" (by decide)).1

theorem discovery_equiv_c8_witness :
    userRoute [demoUser] demoCatalog "u1" =
      (.ok [demoCourse1] ["crs1"], [demoUser]) := by
  have h := ((discovery_equiv_c8 [demoUser] demoCatalog "u1").2.1 demoUser
      demoBio rfl rfl (by decide)).2
  rw [h]
  rfl

/-- C3: `POST /apply/:courseId` appends the path parameter to `coursesApplied`
unconditionally — even when already present, increasing its multiplicity (the
route consults no course catalog: the function does not take one) — sets
`applicationStatus` to "Under Review", persists, and returns the full updated
user; it fails with 404 exactly when the user record does not exist. -/
theorem apply_path_c3 (users : List User) (uid courseId : String) :
    (findById users uid = none →
      applyPathRoute users uid courseId = (.notFound "User not found", users)
      ∧ (applyPathRoute users uid courseId).1.status = 404)
    ∧ (∀ u, findById users uid = some u →
        applyPathRoute users uid courseId =
          (.ok "Course applied successfully"
            { u with coursesApplied := u.coursesApplied ++ [courseId]
                     applicationStatus := "Under Review" },
            saveUser users
              { u with coursesApplied := u.coursesApplied ++ [courseId]
                       applicationStatus := "Under Review" })
        ∧ (u.coursesApplied ++ [courseId]).count courseId
            = u.coursesApplied.count courseId + 1
        ∧ findById (applyPathRoute users uid courseId).2 uid =
            some { u with coursesApplied := u.coursesApplied ++ [courseId]
                          applicationStatus := "Under Review" }) := by
  constructor
  · intro h
    simp [applyPathRoute, h, ApplyPathResp.status]
  · intro u hu
    refine ⟨by simp [applyPathRoute, hu], by simp [List.count_append], ?_⟩
    have hid : ({ u with coursesApplied := u.coursesApplied ++ [courseId]
                         applicationStatus := "Under Review" } : User).id
        = uid := by
      simpa using findById_id hu
    have hsave := findById_saveUser hu _ hid
    simpa [applyPathRoute, hu] using hsave

theorem apply_path_c3_witness :
    applyPathRoute [demoUser] "u1" "crs1" =
      (.ok "Course applied successfully"
        { demoUser with coursesApplied := ["crs1", "crs1"]
                        applicationStatus := "Under Review" },
        [{ demoUser with coursesApplied := ["crs1", "crs1"]
                         applicationStatus := "Under Review" }]) := by
  have h := ((apply_path_c3 [demoUser] "u1" "crs1").2 demoUser rfl).1
  rw [h]
  rfl

/-- C10: on success, the `/apply/:courseId` response body carries the complete
stored user document — the very record persisted by the route, with every
schema field — whose `password` field still holds the user's stored bcrypt
hash, so the hash is disclosed to the caller. -/
theorem apply_path_password_c10 (users : List User) (uid courseId : String)
    (u : User) (hu : findById users uid = some u) :
    (applyPathRoute users uid courseId).1 =
      .ok "Course applied successfully"
        { u with coursesApplied := u.coursesApplied ++ [courseId]
                 applicationStatus := "Under Review" }
    ∧ findById (applyPathRoute users uid courseId).2 uid =
        some { u with coursesApplied := u.coursesApplied ++ [courseId]
                      applicationStatus := "Under Review" }
    ∧ ({ u with coursesApplied := u.coursesApplied ++ [courseId]
                applicationStatus := "Under Review" } : User).password
        = u.password := by
  refine ⟨by simp [applyPathRoute, hu], ?_, rfl⟩
  have hid : ({ u with coursesApplied := u.coursesApplied ++ [courseId]
                       applicationStatus := "Under Review" } : User).id
      = uid := by
    simpa using findById_id hu
  have hsave := findById_saveUser hu _ hid
  simpa [applyPathRoute, hu] using hsave

theorem apply_path_password_c10_witness :
    (applyPathRoute [demoUser] "u1" "crs2").1 =
      .ok "Course applied successfully"
        { demoUser with coursesApplied := ["crs1", "crs2"]
                        applicationStatus := "Under Review" }
    ∧ ({ demoUser with coursesApplied := ["crs1", "crs2"]
                       applicationStatus := "Under Review" } : User).password
        = "hpw" := by
  have h :=
    (apply_path_password_c10 [demoUser] "u1" "crs2" demoUser rfl).1
  exact ⟨h, rfl⟩

/-- C2: `POST /apply-course` with a fresh `courseId` succeeds and appends on
the first call; the second call with the same `courseId` returns 400 and
leaves `coursesApplied` unchanged (the store is returned verbatim), and a
request without a `courseId` also returns 400 with the state unchanged. -/
theorem apply_course_c2 (users : List User) (uid cid : String) (u : User)
    (hu : findById users uid = some u) (hne : cid ≠ "")
    (hnew : cid ∉ u.coursesApplied) :
    applyCourseRoute users uid (some cid) =
      (.ok "Application submitted successfully!",
        saveUser users { u with coursesApplied := u.coursesApplied ++ [cid] })
    ∧ findById
        (saveUser users { u with coursesApplied := u.coursesApplied ++ [cid] })
        uid = some { u with coursesApplied := u.coursesApplied ++ [cid] }
    ∧ applyCourseRoute
        (saveUser users { u with coursesApplied := u.coursesApplied ++ [cid] })
        uid (some cid) =
      (.badRequest "You have already applied for this course.",
        saveUser users { u with coursesApplied := u.coursesApplied ++ [cid] })
    ∧ (applyCourseRoute
        (saveUser users { u with coursesApplied := u.coursesApplied ++ [cid] })
        uid (some cid)).1.status = 400
    ∧ applyCourseRoute users uid none =
        (.badRequest "Course ID is required.", users) := by
  have hcontains : u.coursesApplied.contains cid = false := by simpa using hnew
  have hid : ({ u with coursesApplied := u.coursesApplied ++ [cid] } : User).id
      = uid := by
    simpa using findById_id hu
  have hsave := findById_saveUser hu
    { u with coursesApplied := u.coursesApplied ++ [cid] } hid
  refine ⟨by simp [applyCourseRoute, hu, hne, hcontains, hnew], hsave, ?_, ?_,
    by simp [applyCourseRoute, hu]⟩
  · simp [applyCourseRoute, hsave, hne]
  · simp [applyCourseRoute, hsave, hne, ApplyCourseResp.status]

theorem apply_course_c2_witness :
    applyCourseRoute [demoUser] "u1" (some "crs9") =
      (.ok "Application submitted successfully!",
        [{ demoUser with coursesApplied := ["crs1", "crs9"] }])
    ∧ applyCourseRoute [{ demoUser with coursesApplied := ["crs1", "crs9"] }]
        "u1" (some "crs9") =
      (.badRequest "You have already applied for this course.",
        [{ demoUser with coursesApplied := ["crs1", "crs9"] }]) := by
  obtain ⟨h1, -, h3, -, -⟩ :=
    apply_course_c2 [demoUser] "u1" "crs9" demoUser rfl (by decide) (by decide)
  constructor
  · rw [h1]
    rfl
  · exact h3

/-- C6: a bio submission missing `name`, `age`, or `specialization` gets 400
"Missing required fields" and leaves the store — hence any previously stored
`bioData` together with its certificates — completely unchanged; with all
three present (and the user existing) `bioData` is replaced wholesale and its
`certificates` are exactly the uploaded filenames, a full replace. -/
theorem bio_c6 (users : List User) (uid : String) (r : BioReq) :
    ((truthy r.name && truthy r.age && truthy r.specialization) = false →
      bioRoute users uid r = (.badRequest "Missing required fields", users)
      ∧ findById (bioRoute users uid r).2 uid = findById users uid)
    ∧ (∀ u, (truthy r.name && truthy r.age && truthy r.specialization) = true →
        findById users uid = some u →
        bioRoute users uid r =
          (.ok (submittedBio r),
            saveUser users { u with bioData := some (submittedBio r) })
        ∧ findById (bioRoute users uid r).2 uid =
            some { u with bioData := some (submittedBio r) }
        ∧ (submittedBio r).certificates = r.files) := by
  constructor
  · intro h
    simp [bioRoute, h]
  · intro u ht hu
    refine ⟨by simp [bioRoute, ht, hu], ?_, rfl⟩
    have hid : ({ u with bioData := some (submittedBio r) } : User).id = uid := by
      simpa using findById_id hu
    have hsave := findById_saveUser hu _ hid
    simpa [bioRoute, ht, hu] using hsave

/-- The demo bio submission with every form field present. -/
def demoBioReqFull : BioReq :=
  ⟨some "Bob", some "20", some "Mathematics", some "75", some "88", ["f1.pdf"]⟩

/-- The demo bio submission without `specialization`. -/
def demoBioReqNoSpec : BioReq :=
  ⟨some "Bob", some "20", none, some "75", some "88", []⟩

/-- The demo bio submission without `marks12th`. -/
def demoBioReqNoMarks : BioReq :=
  ⟨some "Bob", some "20", some "Mathematics", some "75", none, []⟩

/-- The bio record that `demoBioReqFull` stores. -/
def demoSubmittedBio : BioData :=
  { name := "Bob", age := .num 20, specialization := "Mathematics",
    marks10th := .num 75, marks12th := .num 88, certificates := ["f1.pdf"] }

theorem bio_c6_witness :
    bioRoute [demoUser] "u1" demoBioReqNoSpec =
      (.badRequest "Missing required fields", [demoUser])
    ∧ bioRoute [demoUser] "u1" demoBioReqFull =
      (.ok demoSubmittedBio,
        [{ demoUser with bioData := some demoSubmittedBio }]) := by
  constructor
  · exact (((bio_c6 [demoUser] "u1" demoBioReqNoSpec).1) (by decide)).1
  · have h :=
      (((bio_c6 [demoUser] "u1" demoBioReqFull).2) demoUser (by decide) rfl).1
    rw [h]
    rfl

/-- C7: a bio submission with `name`, `age`, and `specialization` present but
`marks10th` or `marks12th` absent is not rejected with a 400 validation
error: the absent field is coerced to `NaN` by `Number(...)` and the
submission proceeds to persistence with that `NaN` stored. -/
theorem bio_nan_c7 (users : List User) (uid : String) (r : BioReq) (u : User)
    (ht : (truthy r.name && truthy r.age && truthy r.specialization) = true)
    (hu : findById users uid = some u) :
    (bioRoute users uid r).1 = .ok (submittedBio r)
    ∧ (bioRoute users uid r).1.status = 200
    ∧ (bioRoute users uid r).1 ≠ .badRequest "Missing required fields"
    ∧ (r.marks10th = none → (submittedBio r).marks10th = .nan)
    ∧ (r.marks12th = none → (submittedBio r).marks12th = .nan)
    ∧ findById (bioRoute users uid r).2 uid =
        some { u with bioData := some (submittedBio r) } := by
  refine ⟨by simp [bioRoute, ht, hu], by simp [bioRoute, ht, hu, BioResp.status],
    by simp [bioRoute, ht, hu], ?_, ?_, ?_⟩
  · intro hm
    simp [submittedBio, hm, jsNumber]
  · intro hm
    simp [submittedBio, hm, jsNumber]
  · have hid : ({ u with bioData := some (submittedBio r) } : User).id = uid := by
      simpa using findById_id hu
    have hsave := findById_saveUser hu _ hid
    simpa [bioRoute, ht, hu] using hsave

theorem bio_nan_c7_witness :
    (bioRoute [demoUser] "u1" demoBioReqNoMarks).1 =
      .ok { name := "Bob", age := .num 20, specialization := "Mathematics",
            marks10th := .num 75, marks12th := .nan, certificates := [] }
    ∧ (bioRoute [demoUser] "u1" demoBioReqNoMarks).1.status = 200 := by
  obtain ⟨h1, h2, -, -, -, -⟩ :=
    bio_nan_c7 [demoUser] "u1" demoBioReqNoMarks demoUser (by decide) rfl
  exact ⟨h1, h2⟩
